import Mathlib

/-!
Verification of the Sales-CRM backend analytics core
(src/backend/server.py): the derived-metrics calculator
(calculate_revenue_and_load), the lead-response enrichment
(enrich_lead_response), and the dashboard / geography aggregation
endpoints (get_dashboard_analytics, get_geography_analytics).

Numbers are modelled as rationals (Python floats are treated as exact
arithmetic); Python's round(x, n) is modelled by round-half-to-even on
rationals. Python truthiness of numbers (0 is falsy) is modelled
explicitly wherever the source relies on it.
-/

namespace SalesCRM

/-- Average scan size constant, server.py line 26: AVG_SCAN_SIZE_MB = 15. -/
def AVG_SCAN_SIZE_MB : ℚ := 15

/-- Python's round-to-integer on rationals: round half to even
(banker's rounding), as Python's built-in round behaves on exact values. -/
def pyRound (x : ℚ) : ℤ :=
  let f := ⌊x⌋
  let r := x - f
  if r < 1 / 2 then f
  else if 1 / 2 < r then f + 1
  else if f % 2 = 0 then f else f + 1

/-- Python's round(x, d): round to d decimal digits. -/
def roundTo (d : ℕ) (x : ℚ) : ℚ := (pyRound (x * 10 ^ d) : ℚ) / 10 ^ d

/-- Python's round(x, 2). -/
def round2 (x : ℚ) : ℚ := roundTo 2 x

/-- Python's round(x, 1). -/
def round1 (x : ℚ) : ℚ := roundTo 1 x

/-- Result record of calculate_revenue_and_load (server.py lines 398-403). -/
structure RevenueLoad where
  monthly_revenue : ℚ
  annual_revenue : ℚ
  daily_data_load_gb : ℚ
  monthly_data_load_gb : ℚ
deriving DecidableEq

/-- calculate_revenue_and_load (server.py lines 391-403).
Python truthiness: monthly_revenue is price*volume only when both are
nonzero (price and volume), else 0; daily_scans and monthly_data_load_gb
guard on volume being nonzero. -/
def calculate_revenue_and_load (price : ℚ) (volume : ℤ) : RevenueLoad :=
  let monthly_revenue : ℚ := if price ≠ 0 ∧ volume ≠ 0 then price * (volume : ℚ) else 0
  let annual_revenue : ℚ := monthly_revenue * 12
  let daily_scans : ℚ := if volume ≠ 0 then (volume : ℚ) / 30 else 0
  let daily_data_load_gb : ℚ := (daily_scans * AVG_SCAN_SIZE_MB) / 1024
  let monthly_data_load_gb : ℚ := if volume ≠ 0 then ((volume : ℚ) * AVG_SCAN_SIZE_MB) / 1024 else 0
  { monthly_revenue := round2 monthly_revenue
    annual_revenue := round2 annual_revenue
    daily_data_load_gb := round2 daily_data_load_gb
    monthly_data_load_gb := round2 monthly_data_load_gb }

/-- Stored organization document fields read by the analytics core
(create_organization in server.py stores id, name, type, state, city,
created_at). -/
structure Organization where
  id : String
  name : String
  type : String
  state : String
  city : String
  created_at : String
deriving DecidableEq

/-- Stored lead document, exactly the keys of lead_doc in create_lead
(server.py lines 679-688). Optional numeric fields are None-able in the
source (Optional[float] / Optional[int] in LeadCreate). -/
structure Lead where
  id : String
  lead_code : String
  lead_name : String
  organization_id : String
  product : String
  offered_price : Option ℚ
  agreed_price : Option ℚ
  expected_volume : Option ℤ
  stage : String
  probability : ℤ
  status : String
  expected_close_date : Option String
  sales_owner : Option String
  source : Option String
  remarks : Option String
  created_at : String
deriving DecidableEq

/-- Python expression x or y for an optional number x: both None and 0
are falsy, so the result is y in those cases. -/
def pyOrQ (x : Option ℚ) (y : ℚ) : ℚ :=
  match x with
  | some v => if v = 0 then y else v
  | none => y

/-- Python expression x or y for an optional integer x. -/
def pyOrZ (x : Option ℤ) (y : ℤ) : ℤ :=
  match x with
  | some v => if v = 0 then y else v
  | none => y

/-- Price resolution performed by enrich_lead_response, server.py line
661: price = lead.get("agreed_price") or lead.get("offered_price") or 0. -/
def enrichPrice (lead : Lead) : ℚ :=
  pyOrQ lead.agreed_price (pyOrQ lead.offered_price 0)

/-- Volume resolution of enrich_lead_response, server.py line 662:
volume = lead.get("expected_volume") or 0. -/
def enrichVolume (lead : Lead) : ℤ :=
  pyOrZ lead.expected_volume 0

/-- The dict returned by enrich_lead_response: the spread of the stored
lead, the two organization fields, and the spread of the computed
metrics (server.py lines 665-670). The computed keys do not collide with
stored keys, so the flat record is faithful to the dict. -/
structure EnrichedLead where
  id : String
  lead_code : String
  lead_name : String
  organization_id : String
  product : String
  offered_price : Option ℚ
  agreed_price : Option ℚ
  expected_volume : Option ℤ
  stage : String
  probability : ℤ
  status : String
  expected_close_date : Option String
  sales_owner : Option String
  source : Option String
  remarks : Option String
  created_at : String
  organization_name : Option String
  organization_type : Option String
  monthly_revenue : ℚ
  annual_revenue : ℚ
  daily_data_load_gb : ℚ
  monthly_data_load_gb : ℚ
deriving DecidableEq

/-- enrich_lead_response (server.py lines 659-670). -/
def enrich_lead_response (lead : Lead) (org : Option Organization) : EnrichedLead :=
  let computed := calculate_revenue_and_load (enrichPrice lead) (enrichVolume lead)
  { id := lead.id
    lead_code := lead.lead_code
    lead_name := lead.lead_name
    organization_id := lead.organization_id
    product := lead.product
    offered_price := lead.offered_price
    agreed_price := lead.agreed_price
    expected_volume := lead.expected_volume
    stage := lead.stage
    probability := lead.probability
    status := lead.status
    expected_close_date := lead.expected_close_date
    sales_owner := lead.sales_owner
    source := lead.source
    remarks := lead.remarks
    created_at := lead.created_at
    organization_name := org.map Organization.name
    organization_type := org.map Organization.type
    monthly_revenue := computed.monthly_revenue
    annual_revenue := computed.annual_revenue
    daily_data_load_gb := computed.daily_data_load_gb
    monthly_data_load_gb := computed.monthly_data_load_gb }

/-- Price resolution as the specification words it (claim C1):
agreed_price when set — even when set to 0 — else offered_price when
set, else 0 (null-coalescing, not truthiness). -/
def claimPrice (lead : Lead) : ℚ :=
  lead.agreed_price.getD (lead.offered_price.getD 0)

/-- Amended price resolution matching the code's truthiness chain:
agreed_price when set and nonzero, else offered_price when set and
nonzero, else 0. -/
def amendedPrice (lead : Lead) : ℚ :=
  match lead.agreed_price, lead.offered_price with
  | some a, some b => if a ≠ 0 then a else if b ≠ 0 then b else 0
  | some a, none => if a ≠ 0 then a else 0
  | none, some b => if b ≠ 0 then b else 0
  | none, none => 0

/-- Helper to build concrete leads for witnesses and counterexamples. -/
def mkLead (st : String) (orgId : String) (offered agreed : Option ℚ) (volume : Option ℤ) : Lead :=
  { id := "lead-1"
    lead_code := "LEAD-TEST0001"
    lead_name := "Test Lead"
    organization_id := orgId
    product := "AI Screening"
    offered_price := offered
    agreed_price := agreed
    expected_volume := volume
    stage := "IDENTIFIED"
    probability := 50
    status := st
    expected_close_date := none
    sales_owner := none
    source := none
    remarks := none
    created_at := "2024-01-01T00:00:00+00:00" }

/-- A lead whose agreed_price is set to 0 while offered_price is 100. -/
def leadAgreedZero : Lead := mkLead "OPEN" "org-1" (some 100) (some 0) (some 10)

/-- Count of leads with a given status: count_documents on a status
equality filter (server.py line 918). -/
def countStatus (leads : List Lead) (s : String) : ℕ :=
  (leads.filter (fun l => l.status == s)).length

/-- The leads_by_status dict comprehension of server.py line 918. -/
def leadsByStatusList (leads : List Lead) : List (String × ℕ) :=
  (["OPEN", "WON", "LOST"]).map (fun s => (s, countStatus leads s))

/-- Mongo distinct("type") on the organizations collection (server.py
line 921): the type labels currently in use. -/
def distinctTypes (orgs : List Organization) : List String :=
  (orgs.map Organization.type).dedup

/-- Ids of the organizations of a given type (server.py lines 924-925). -/
def orgIdsOfType (orgs : List Organization) (t : String) : List String :=
  (orgs.filter (fun o => o.type == t)).map Organization.id

/-- Per-type lead count of server.py line 926: count_documents with an
organization_id $in filter when the id set is nonempty, else a constant
0 without any query (Python conditional short-circuit). -/
def orgTypeLeadCount (orgs : List Organization) (leads : List Lead) (t : String) : ℕ :=
  let org_ids := orgIdsOfType orgs t
  if org_ids.isEmpty then 0
  else (leads.filter (fun l => org_ids.contains l.organization_id)).length

/-- Number of membership (count_documents with $in) queries issued for a
type label by server.py line 926: 0 when the id set is empty (the
conditional short-circuits before querying), 1 otherwise. -/
def orgTypeMembershipQueries (orgs : List Organization) (t : String) : ℕ :=
  if (orgIdsOfType orgs t).isEmpty then 0 else 1

/-- The pipeline-value aggregation of server.py lines 929-934: match
leads with status OPEN and offered_price not None, sum offered_price;
an empty match yields 0. -/
def pipelineValue (leads : List Lead) : ℚ :=
  ((leads.filter (fun l => l.status == "OPEN" && l.offered_price.isSome)).map
    (fun l => l.offered_price.getD 0)).sum

/-- Sum of ifNull(offered_price, 0) over WON leads (server.py line 941). -/
def wonOffered (leads : List Lead) : ℚ :=
  ((leads.filter (fun l => l.status == "WON")).map (fun l => l.offered_price.getD 0)).sum

/-- Sum of ifNull(agreed_price, 0) over WON leads (server.py line 942). -/
def wonAgreed (leads : List Lead) : ℚ :=
  ((leads.filter (fun l => l.status == "WON")).map (fun l => l.agreed_price.getD 0)).sum

/-- Sum of ifNull(expected_volume, 0) over WON leads (server.py line 943). -/
def totalVolume (leads : List Lead) : ℤ :=
  ((leads.filter (fun l => l.status == "WON")).map (fun l => l.expected_volume.getD 0)).sum

/-- The monthly-revenue aggregation of server.py lines 952-958: match
WON leads whose agreed_price and expected_volume are both not None, sum
agreed_price * expected_volume; an empty match yields 0. -/
def monthlyRevenueRaw (leads : List Lead) : ℚ :=
  ((leads.filter (fun l =>
      l.status == "WON" && l.agreed_price.isSome && l.expected_volume.isSome)).map
    (fun l => l.agreed_price.getD 0 * ((l.expected_volume.getD 0 : ℤ) : ℚ))).sum

/-- The average-probability aggregation of server.py lines 970-975:
$avg of probability over OPEN leads; an empty match yields 0. -/
def avgProbabilityRaw (leads : List Lead) : ℚ :=
  let opens := leads.filter (fun l => l.status == "OPEN")
  if opens.isEmpty then 0
  else ((opens.map (fun l => (l.probability : ℚ))).sum) / (opens.length : ℚ)

/-- The JSON object returned by get_dashboard_analytics (server.py
lines 977-993). -/
structure Dashboard where
  total_leads : ℕ
  total_organizations : ℕ
  leads_by_stage : List (String × ℕ)
  leads_by_status : List (String × ℕ)
  leads_by_org_type : List (String × ℕ)
  pipeline_value : ℚ
  won_offered : ℚ
  won_agreed : ℚ
  monthly_revenue : ℚ
  annual_revenue : ℚ
  total_volume : ℤ
  daily_data_load_gb : ℚ
  monthly_data_load_gb : ℚ
  win_rate : ℚ
  avg_probability : ℚ
deriving DecidableEq

/-- get_dashboard_analytics (server.py lines 905-993). stageNames stands
for the stage-label registry returned by get_lead_stages (defaults
merged with custom stages), read fresh per request. -/
def get_dashboard_analytics (leads : List Lead) (orgs : List Organization)
    (stageNames : List String) : Dashboard :=
  let monthly_revenue := monthlyRevenueRaw leads
  let annual_revenue := monthly_revenue * 12
  let total_volume := totalVolume leads
  let monthly_data_load_gb := ((total_volume : ℚ) * AVG_SCAN_SIZE_MB) / 1024
  let daily_data_load_gb := monthly_data_load_gb / 30
  let total_closed := countStatus leads "WON" + countStatus leads "LOST"
  let win_rate : ℚ :=
    if 0 < total_closed then (countStatus leads "WON" : ℚ) / (total_closed : ℚ) * 100 else 0
  let avg_probability := avgProbabilityRaw leads
  { total_leads := leads.length
    total_organizations := orgs.length
    leads_by_stage := stageNames.map (fun s => (s, (leads.filter (fun l => l.stage == s)).length))
    leads_by_status := leadsByStatusList leads
    leads_by_org_type := (distinctTypes orgs).map (fun t => (t, orgTypeLeadCount orgs leads t))
    pipeline_value := pipelineValue leads
    won_offered := wonOffered leads
    won_agreed := wonAgreed leads
    monthly_revenue := round2 monthly_revenue
    annual_revenue := round2 annual_revenue
    total_volume := total_volume
    daily_data_load_gb := round2 daily_data_load_gb
    monthly_data_load_gb := round2 monthly_data_load_gb
    win_rate := round1 win_rate
    avg_probability := if avg_probability = 0 then 0 else round1 avg_probability }

/-- The fixed region list INDIAN_STATES (server.py line 132, taken from
COUNTRIES_DATA["India"]["regions"], lines 38-45). -/
def INDIAN_STATES : List String :=
  ["Andhra Pradesh", "Arunachal Pradesh", "Assam", "Bihar", "Chhattisgarh",
   "Goa", "Gujarat", "Haryana", "Himachal Pradesh", "Jharkhand", "Karnataka",
   "Kerala", "Madhya Pradesh", "Maharashtra", "Manipur", "Meghalaya", "Mizoram",
   "Nagaland", "Odisha", "Punjab", "Rajasthan", "Sikkim", "Tamil Nadu",
   "Telangana", "Tripura", "Uttar Pradesh", "Uttarakhand", "West Bengal",
   "Delhi", "Jammu and Kashmir", "Ladakh", "Puducherry", "Chandigarh"]

/-- Per-region entry of the geography report (server.py lines 1017-1023). -/
structure RegionStats where
  organizations : ℕ
  leads : ℕ
  monthly_revenue : ℚ
deriving DecidableEq

/-- Ids of the organizations in a state (server.py lines 1001-1002). -/
def orgIdsOfState (orgs : List Organization) (s : String) : List String :=
  (orgs.filter (fun o => o.state == s)).map Organization.id

/-- The per-state body of get_geography_analytics (server.py lines
1004-1023): short-circuit to all-zero placeholders when no organization
is in the state, else lead count and the WON recurring-revenue sum over
that state's organization id set. -/
def regionStats (orgs : List Organization) (leads : List Lead) (s : String) : RegionStats :=
  let org_ids := orgIdsOfState orgs s
  if org_ids.isEmpty then
    { organizations := 0, leads := 0, monthly_revenue := 0 }
  else
    let lead_count := (leads.filter (fun l => org_ids.contains l.organization_id)).length
    let monthly_revenue :=
      ((leads.filter (fun l =>
          org_ids.contains l.organization_id && l.status == "WON" &&
          l.agreed_price.isSome && l.expected_volume.isSome)).map
        (fun l => l.agreed_price.getD 0 * ((l.expected_volume.getD 0 : ℤ) : ℚ))).sum
    { organizations := org_ids.length
      leads := lead_count
      monthly_revenue := round2 monthly_revenue }

/-- Number of queries issued for a state beyond the organization lookup
(server.py lines 1004-1015): 0 in the empty short-circuit branch, 2
(lead count plus revenue aggregation) otherwise. -/
def regionExtraQueries (orgs : List Organization) (s : String) : ℕ :=
  if (orgIdsOfState orgs s).isEmpty then 0 else 2

/-- get_geography_analytics (server.py lines 995-1025): one entry per
region of the fixed list. -/
def get_geography_analytics (orgs : List Organization) (leads : List Lead) :
    List (String × RegionStats) :=
  INDIAN_STATES.map (fun s => (s, regionStats orgs leads s))

/-- Concrete organization in Kerala used by witnesses. -/
def wOrg : Organization :=
  { id := "org-1", name := "Test Hospital", type := "HOSPITAL",
    state := "Kerala", city := "Kochi", created_at := "2024-01-01T00:00:00+00:00" }

/-- Concrete WON lead (agreed_price 100, expected_volume 10) used by
the geography witness. -/
def wLeadWon : Lead := mkLead "WON" "org-1" (some 300) (some 100) (some 10)

/-- Concrete OPEN lead with offered_price 500 used by witnesses. -/
def wLeadOpen : Lead := mkLead "OPEN" "org-1" (some 500) none none

/-- Concrete OPEN lead with no prices used by witnesses. -/
def wLeadBare : Lead := mkLead "OPEN" "org-1" none none none

/-- Concrete WON lead with agreed_price 200 and absent expected_volume. -/
def wLeadNoVolume : Lead := mkLead "WON" "org-1" none (some 200) none

/-- Concrete one-WON-one-LOST collection used by the win-rate witness. -/
def wClosedLeads : List Lead :=
  [mkLead "WON" "org-1" none none none, mkLead "LOST" "org-1" none none none]

/-- Concrete one-OPEN-one-WON collection used by the status witness. -/
def wStatusLeads : List Lead :=
  [mkLead "OPEN" "org-1" none none none, mkLead "WON" "org-1" none none none]

theorem pyRound_zero : pyRound 0 = 0 := by
  simp [pyRound]

theorem pyRound_nonneg {x : ℚ} (hx : 0 ≤ x) : 0 ≤ pyRound x := by
  have hf : (0 : ℤ) ≤ ⌊x⌋ := Int.floor_nonneg.mpr hx
  unfold pyRound
  dsimp only
  split
  · exact hf
  · split
    · omega
    · split <;> omega

theorem pyRound_ge_one {x : ℚ} (hx : 1 / 2 < x) : 1 ≤ pyRound x := by
  have hx0 : (0 : ℚ) ≤ x := le_of_lt (lt_trans (by norm_num) hx)
  have hf0 : (0 : ℤ) ≤ ⌊x⌋ := Int.floor_nonneg.mpr hx0
  unfold pyRound
  dsimp only
  rcases eq_or_lt_of_le hf0 with hf | hf
  · have hr : 1 / 2 < x - (⌊x⌋ : ℚ) := by
      rw [← hf]
      push_cast
      linarith
    rw [if_neg (by linarith), if_pos hr, ← hf]
    omega
  · split
    · omega
    · split
      · omega
      · split <;> omega

theorem pyRound_eq_zero_of_lt_half {x : ℚ} (h0 : 0 ≤ x) (h : x < 1 / 2) : pyRound x = 0 := by
  have hf : ⌊x⌋ = 0 := by
    apply Int.floor_eq_zero_iff.mpr
    constructor
    · exact h0
    · exact lt_trans h (by norm_num)
  unfold pyRound
  dsimp only
  rw [hf]
  rw [if_pos]
  push_cast
  linarith

theorem roundTo_zero (d : ℕ) : roundTo d 0 = 0 := by
  simp [roundTo, pyRound_zero]

theorem roundTo_nonneg (d : ℕ) {x : ℚ} (hx : 0 ≤ x) : 0 ≤ roundTo d x := by
  have h : 0 ≤ pyRound (x * 10 ^ d) :=
    pyRound_nonneg (mul_nonneg hx (by positivity))
  unfold roundTo
  positivity

theorem round2_zero : round2 0 = 0 := roundTo_zero 2

theorem round2_nonneg {x : ℚ} (hx : 0 ≤ x) : 0 ≤ round2 x := roundTo_nonneg 2 hx

theorem round1_zero : round1 0 = 0 := roundTo_zero 1

/-- The unrounded monthly revenue expression of the code equals the plain
product whenever price and volume are non-negative (the truthiness guard
only rewrites a zero product to the literal 0). -/
theorem monthly_guard_eq (price : ℚ) (volume : ℤ) :
    (if price ≠ 0 ∧ volume ≠ 0 then price * (volume : ℚ) else 0) = price * (volume : ℚ) := by
  split
  · rfl
  · rename_i h
    push_neg at h
    by_cases hp : price = 0
    · simp [hp]
    · simp [h hp]

/-- Claim C3: for all inputs price ≥ 0 and volume ≥ 0,
calculate_revenue_and_load returns monthly revenue = round2 (price × volume)
and annual revenue = round2 (12 × (price × volume)), all four outputs are
non-negative, and all four outputs are 0 when volume = 0 regardless of
price. -/
theorem claim_C3 (price : ℚ) (volume : ℤ) (hp : 0 ≤ price) (hv : 0 ≤ volume) :
    (calculate_revenue_and_load price volume).monthly_revenue = round2 (price * (volume : ℚ)) ∧
    (calculate_revenue_and_load price volume).annual_revenue = round2 (12 * (price * (volume : ℚ))) ∧
    (0 ≤ (calculate_revenue_and_load price volume).monthly_revenue ∧
      0 ≤ (calculate_revenue_and_load price volume).annual_revenue ∧
      0 ≤ (calculate_revenue_and_load price volume).daily_data_load_gb ∧
      0 ≤ (calculate_revenue_and_load price volume).monthly_data_load_gb) ∧
    (volume = 0 →
      (calculate_revenue_and_load price volume).monthly_revenue = 0 ∧
      (calculate_revenue_and_load price volume).annual_revenue = 0 ∧
      (calculate_revenue_and_load price volume).daily_data_load_gb = 0 ∧
      (calculate_revenue_and_load price volume).monthly_data_load_gb = 0) := by
  have hvq : (0 : ℚ) ≤ (volume : ℚ) := by exact_mod_cast hv
  unfold calculate_revenue_and_load
  dsimp only
  rw [monthly_guard_eq]
  refine ⟨rfl, by ring_nf, ?_, ?_⟩
  · refine ⟨round2_nonneg (mul_nonneg hp hvq), round2_nonneg (by positivity), ?_, ?_⟩
    · apply round2_nonneg
      have h30 : (0 : ℚ) ≤ (volume : ℚ) / 30 := by positivity
      split
      · rw [AVG_SCAN_SIZE_MB]; positivity
      · norm_num [AVG_SCAN_SIZE_MB]
    · apply round2_nonneg
      split
      · rw [AVG_SCAN_SIZE_MB]; positivity
      · exact le_refl 0
  · intro h0
    subst h0
    norm_num [round2_zero]

/-- Witness for claim C3 at price = 3, volume = 2. -/
theorem claim_C3_witness :
    (calculate_revenue_and_load 3 2).monthly_revenue = round2 (3 * ((2 : ℤ) : ℚ)) ∧
    (calculate_revenue_and_load 3 2).annual_revenue = round2 (12 * (3 * ((2 : ℤ) : ℚ))) ∧
    (0 ≤ (calculate_revenue_and_load 3 2).monthly_revenue ∧
      0 ≤ (calculate_revenue_and_load 3 2).annual_revenue ∧
      0 ≤ (calculate_revenue_and_load 3 2).daily_data_load_gb ∧
      0 ≤ (calculate_revenue_and_load 3 2).monthly_data_load_gb) ∧
    ((2 : ℤ) = 0 →
      (calculate_revenue_and_load 3 2).monthly_revenue = 0 ∧
      (calculate_revenue_and_load 3 2).annual_revenue = 0 ∧
      (calculate_revenue_and_load 3 2).daily_data_load_gb = 0 ∧
      (calculate_revenue_and_load 3 2).monthly_data_load_gb = 0) :=
  claim_C3 3 2 (by norm_num) (by norm_num)

theorem pyRound_intCast (n : ℤ) : pyRound (n : ℚ) = n := by
  unfold pyRound
  simp

theorem round2_intCast (n : ℤ) : round2 (n : ℚ) = (n : ℚ) := by
  unfold round2 roundTo
  have h : (n : ℚ) * 10 ^ 2 = ((n * 100 : ℤ) : ℚ) := by push_cast; ring
  rw [h, pyRound_intCast]
  push_cast
  ring

theorem round2_eq_zero_of_small (x : ℚ) (h0 : 0 ≤ x) (h : x * 100 < 1 / 2) : round2 x = 0 := by
  unfold round2 roundTo
  have h2 : (10 : ℚ) ^ 2 = 100 := by norm_num
  rw [h2, pyRound_eq_zero_of_lt_half (by positivity) h]
  norm_num

theorem round2_pos_of_big (x : ℚ) (h : 1 / 2 < x * 100) : 0 < round2 x := by
  unfold round2 roundTo
  have h2 : (10 : ℚ) ^ 2 = 100 := by norm_num
  rw [h2]
  have h1 : 1 ≤ pyRound (x * 100) := pyRound_ge_one h
  have h1q : (1 : ℚ) ≤ (pyRound (x * 100) : ℚ) := by exact_mod_cast h1
  exact div_pos (by linarith) (by norm_num)

theorem pyOrZ_getD (x : Option ℤ) : pyOrZ x 0 = x.getD 0 := by
  cases x with
  | none => rfl
  | some v =>
    by_cases h : v = 0 <;> simp [pyOrZ, h]

theorem enrichVolume_getD (lead : Lead) : enrichVolume lead = lead.expected_volume.getD 0 :=
  pyOrZ_getD lead.expected_volume

theorem enrichPrice_eq_amended (lead : Lead) : enrichPrice lead = amendedPrice lead := by
  unfold enrichPrice amendedPrice pyOrQ
  cases ha : lead.agreed_price with
  | none =>
    cases hb : lead.offered_price with
    | none => rfl
    | some b => by_cases h : b = 0 <;> simp [h]
  | some a =>
    cases hb : lead.offered_price with
    | none => by_cases h : a = 0 <;> simp [h]
    | some b =>
      by_cases h : a = 0 <;> by_cases hbz : b = 0 <;> simp [h, hbz]

/-- Claim C1 (corrected): the claim states the resolved price is
agreed_price when set (even when set to 0), else offered_price, else 0.
The code resolves by Python truthiness, so agreed_price = 0 falls back
to offered_price: on leadAgreedZero (agreed_price 0, offered_price 100,
expected_volume 10) the code passes 100, not the claimed 0, and the
enriched monthly revenue is 1000 instead of the 0 the claim implies. -/
theorem claim_C1_counterexample :
    enrichPrice leadAgreedZero = 100 ∧
    claimPrice leadAgreedZero = 0 ∧
    enrichPrice leadAgreedZero ≠ claimPrice leadAgreedZero ∧
    (enrich_lead_response leadAgreedZero none).monthly_revenue = 1000 ∧
    (calculate_revenue_and_load (claimPrice leadAgreedZero) (enrichVolume leadAgreedZero)).monthly_revenue = 0 := by
  have hp : enrichPrice leadAgreedZero = 100 := by
    simp [enrichPrice, leadAgreedZero, mkLead, pyOrQ]
  have hc : claimPrice leadAgreedZero = 0 := by
    simp [claimPrice, leadAgreedZero, mkLead]
  have hv : enrichVolume leadAgreedZero = 10 := by
    simp [enrichVolume, leadAgreedZero, mkLead, pyOrZ]
  refine ⟨hp, hc, by rw [hp, hc]; norm_num, ?_, ?_⟩
  · show (calculate_revenue_and_load (enrichPrice leadAgreedZero) (enrichVolume leadAgreedZero)).monthly_revenue = 1000
    rw [hp, hv]
    unfold calculate_revenue_and_load
    dsimp only
    rw [if_pos (by norm_num)]
    have h : (100 : ℚ) * ((10 : ℤ) : ℚ) = ((1000 : ℤ) : ℚ) := by norm_num
    rw [h, round2_intCast]
    norm_num
  · rw [hc, hv]
    unfold calculate_revenue_and_load
    dsimp only
    rw [if_neg (by norm_num)]
    exact round2_zero

/-- Claim C1 (amended): the price passed by enrich_lead_response to the
derived-metrics calculator is agreed_price when set and nonzero, else
offered_price when set and nonzero, else 0 (an agreed_price set to 0 is
NOT preferred over offered_price); with that price the four computed
fields of the enriched response agree with the calculator at the stored
volume. -/
theorem claim_C1 (lead : Lead) (org : Option Organization) :
    enrichPrice lead = amendedPrice lead ∧
    (enrich_lead_response lead org).monthly_revenue =
      (calculate_revenue_and_load (amendedPrice lead) (lead.expected_volume.getD 0)).monthly_revenue ∧
    (enrich_lead_response lead org).annual_revenue =
      (calculate_revenue_and_load (amendedPrice lead) (lead.expected_volume.getD 0)).annual_revenue ∧
    (enrich_lead_response lead org).daily_data_load_gb =
      (calculate_revenue_and_load (amendedPrice lead) (lead.expected_volume.getD 0)).daily_data_load_gb ∧
    (enrich_lead_response lead org).monthly_data_load_gb =
      (calculate_revenue_and_load (amendedPrice lead) (lead.expected_volume.getD 0)).monthly_data_load_gb := by
  have hp := enrichPrice_eq_amended lead
  have hv := enrichVolume_getD lead
  refine ⟨hp, ?_, ?_, ?_, ?_⟩ <;>
    simp only [enrich_lead_response, ← hp, ← hv]

/-- Claim C9: enrich_lead_response leaves every stored lead field
unchanged in its output and only adds organization_name,
organization_type, and the four computed revenue/data-load fields. -/
theorem claim_C9 (lead : Lead) (org : Option Organization) :
    (enrich_lead_response lead org).id = lead.id ∧
    (enrich_lead_response lead org).lead_code = lead.lead_code ∧
    (enrich_lead_response lead org).lead_name = lead.lead_name ∧
    (enrich_lead_response lead org).organization_id = lead.organization_id ∧
    (enrich_lead_response lead org).product = lead.product ∧
    (enrich_lead_response lead org).offered_price = lead.offered_price ∧
    (enrich_lead_response lead org).agreed_price = lead.agreed_price ∧
    (enrich_lead_response lead org).expected_volume = lead.expected_volume ∧
    (enrich_lead_response lead org).stage = lead.stage ∧
    (enrich_lead_response lead org).probability = lead.probability ∧
    (enrich_lead_response lead org).status = lead.status ∧
    (enrich_lead_response lead org).expected_close_date = lead.expected_close_date ∧
    (enrich_lead_response lead org).sales_owner = lead.sales_owner ∧
    (enrich_lead_response lead org).source = lead.source ∧
    (enrich_lead_response lead org).remarks = lead.remarks ∧
    (enrich_lead_response lead org).created_at = lead.created_at ∧
    (enrich_lead_response lead org).organization_name = org.map Organization.name ∧
    (enrich_lead_response lead org).organization_type = org.map Organization.type ∧
    (enrich_lead_response lead org).monthly_revenue =
      (calculate_revenue_and_load (enrichPrice lead) (enrichVolume lead)).monthly_revenue ∧
    (enrich_lead_response lead org).annual_revenue =
      (calculate_revenue_and_load (enrichPrice lead) (enrichVolume lead)).annual_revenue ∧
    (enrich_lead_response lead org).daily_data_load_gb =
      (calculate_revenue_and_load (enrichPrice lead) (enrichVolume lead)).daily_data_load_gb ∧
    (enrich_lead_response lead org).monthly_data_load_gb =
      (calculate_revenue_and_load (enrichPrice lead) (enrichVolume lead)).monthly_data_load_gb :=
  ⟨rfl, rfl, rfl, rfl, rfl, rfl, rfl, rfl, rfl, rfl, rfl, rfl, rfl, rfl, rfl, rfl,
    rfl, rfl, rfl, rfl, rfl, rfl⟩

/-- Claim C10 (corrected): the data-load outputs are indeed independent
of price, but the claimed positivity of the data-load outputs at price 0
and positive volume fails: at volume 1 the daily data load rounds to
exactly 0 (1/2048 GB rounds to 0.00). -/
theorem claim_C10_counterexample :
    (calculate_revenue_and_load 0 1).monthly_revenue = 0 ∧
    (calculate_revenue_and_load 0 1).annual_revenue = 0 ∧
    (calculate_revenue_and_load 0 1).daily_data_load_gb = 0 := by
  unfold calculate_revenue_and_load
  dsimp only
  rw [if_neg (by norm_num), if_pos (by norm_num)]
  refine ⟨by norm_num [round2_zero], by norm_num [round2_zero], ?_⟩
  apply round2_eq_zero_of_small
  · rw [AVG_SCAN_SIZE_MB]; norm_num
  · rw [AVG_SCAN_SIZE_MB]; norm_num

/-- Claim C10 (amended): the two data-load outputs of
calculate_revenue_and_load do not depend on price; a price of 0 with
positive volume yields zero revenue outputs and a positive monthly
data-load output, while the daily data-load output (rounded to 2
decimals) is 0 for volumes 1 through 10 and positive from volume 11 on. -/
theorem claim_C10 :
    (∀ p1 p2 : ℚ, ∀ v : ℤ,
      (calculate_revenue_and_load p1 v).daily_data_load_gb =
        (calculate_revenue_and_load p2 v).daily_data_load_gb ∧
      (calculate_revenue_and_load p1 v).monthly_data_load_gb =
        (calculate_revenue_and_load p2 v).monthly_data_load_gb) ∧
    (∀ v : ℤ, 0 < v →
      (calculate_revenue_and_load 0 v).monthly_revenue = 0 ∧
      (calculate_revenue_and_load 0 v).annual_revenue = 0 ∧
      0 < (calculate_revenue_and_load 0 v).monthly_data_load_gb) ∧
    (∀ v : ℤ, 1 ≤ v → v ≤ 10 → (calculate_revenue_and_load 0 v).daily_data_load_gb = 0) ∧
    (∀ v : ℤ, 11 ≤ v → 0 < (calculate_revenue_and_load 0 v).daily_data_load_gb) := by
  refine ⟨fun p1 p2 v => ⟨rfl, rfl⟩, ?_, ?_, ?_⟩
  · intro v hv
    have hq : (1 : ℚ) ≤ (v : ℚ) := by exact_mod_cast hv
    unfold calculate_revenue_and_load
    dsimp only
    rw [if_neg (by simp), if_pos (by omega)]
    refine ⟨by norm_num [round2_zero], by norm_num [round2_zero], ?_⟩
    apply round2_pos_of_big
    rw [AVG_SCAN_SIZE_MB]
    nlinarith
  · intro v h1 h10
    have hq1 : (1 : ℚ) ≤ (v : ℚ) := by exact_mod_cast h1
    have hq10 : (v : ℚ) ≤ 10 := by exact_mod_cast h10
    unfold calculate_revenue_and_load
    dsimp only
    rw [if_pos (by omega)]
    apply round2_eq_zero_of_small
    · rw [AVG_SCAN_SIZE_MB]
      nlinarith
    · rw [AVG_SCAN_SIZE_MB]
      nlinarith
  · intro v h11
    have hq : (11 : ℚ) ≤ (v : ℚ) := by exact_mod_cast h11
    unfold calculate_revenue_and_load
    dsimp only
    rw [if_pos (by omega)]
    apply round2_pos_of_big
    rw [AVG_SCAN_SIZE_MB]
    nlinarith

/-- Witness for claim C10 at concrete prices 5 and 9 and volumes 7, 3,
10 and 11. -/
theorem claim_C10_witness :
    ((calculate_revenue_and_load 5 7).daily_data_load_gb =
        (calculate_revenue_and_load 9 7).daily_data_load_gb ∧
      (calculate_revenue_and_load 5 7).monthly_data_load_gb =
        (calculate_revenue_and_load 9 7).monthly_data_load_gb) ∧
    ((calculate_revenue_and_load 0 3).monthly_revenue = 0 ∧
      (calculate_revenue_and_load 0 3).annual_revenue = 0 ∧
      0 < (calculate_revenue_and_load 0 3).monthly_data_load_gb) ∧
    (calculate_revenue_and_load 0 10).daily_data_load_gb = 0 ∧
    0 < (calculate_revenue_and_load 0 11).daily_data_load_gb :=
  ⟨claim_C10.1 5 9 7, claim_C10.2.1 3 (by norm_num),
    claim_C10.2.2.1 10 (by norm_num) (by norm_num), claim_C10.2.2.2 11 (by norm_num)⟩

theorem countStatus_partition (leads : List Lead)
    (h : ∀ l ∈ leads, l.status = "OPEN" ∨ l.status = "WON" ∨ l.status = "LOST") :
    countStatus leads "OPEN" + countStatus leads "WON" + countStatus leads "LOST" =
      leads.length := by
  induction leads with
  | nil => rfl
  | cons hd tl ih =>
    have hhd := h hd (by simp)
    have ih2 := ih (fun l hl => h l (by simp [hl]))
    unfold countStatus at ih2 ⊢
    rcases hhd with h1 | h1 | h1 <;>
      simp [List.filter_cons, h1] <;> omega

/-- Claim C7: when every lead status is OPEN, WON or LOST, the sum of
the three leads_by_status values of the dashboard equals total_leads. -/
theorem claim_C7 (leads : List Lead) (orgs : List Organization) (stageNames : List String)
    (h : ∀ l ∈ leads, l.status = "OPEN" ∨ l.status = "WON" ∨ l.status = "LOST") :
    ((get_dashboard_analytics leads orgs stageNames).leads_by_status.map Prod.snd).sum =
      (get_dashboard_analytics leads orgs stageNames).total_leads := by
  have hp := countStatus_partition leads h
  show ((leadsByStatusList leads).map Prod.snd).sum = leads.length
  simp only [leadsByStatusList, List.map_cons, List.map_nil, List.sum_cons, List.sum_nil]
  omega

/-- Witness for claim C7 on a one-OPEN-one-WON collection. -/
theorem claim_C7_witness :
    ((get_dashboard_analytics wStatusLeads [] []).leads_by_status.map Prod.snd).sum =
      (get_dashboard_analytics wStatusLeads [] []).total_leads :=
  claim_C7 wStatusLeads [] [] (by decide)

/-- Claim C6: the dashboard win_rate is WON / (WON + LOST) as a
percentage rounded to 1 decimal, and is exactly 0 whenever WON + LOST
is 0, regardless of how many OPEN leads exist. -/
theorem claim_C6 (leads : List Lead) (orgs : List Organization) (stageNames : List String) :
    (countStatus leads "WON" + countStatus leads "LOST" = 0 →
      (get_dashboard_analytics leads orgs stageNames).win_rate = 0) ∧
    (0 < countStatus leads "WON" + countStatus leads "LOST" →
      (get_dashboard_analytics leads orgs stageNames).win_rate =
        round1 ((countStatus leads "WON" : ℚ) /
          ((countStatus leads "WON" + countStatus leads "LOST" : ℕ) : ℚ) * 100)) := by
  have e : (get_dashboard_analytics leads orgs stageNames).win_rate =
      round1 (if 0 < countStatus leads "WON" + countStatus leads "LOST" then
        (countStatus leads "WON" : ℚ) /
          ((countStatus leads "WON" + countStatus leads "LOST" : ℕ) : ℚ) * 100
      else 0) := rfl
  constructor
  · intro h
    rw [e, if_neg (by omega)]
    exact round1_zero
  · intro h
    rw [e, if_pos h]

/-- Witness for claim C6 on an OPEN-only collection and on a
one-WON-one-LOST collection. -/
theorem claim_C6_witness :
    (get_dashboard_analytics [wLeadBare] [] []).win_rate = 0 ∧
    (get_dashboard_analytics wClosedLeads [] []).win_rate =
      round1 ((countStatus wClosedLeads "WON" : ℚ) /
        ((countStatus wClosedLeads "WON" + countStatus wClosedLeads "LOST" : ℕ) : ℚ) * 100) :=
  ⟨(claim_C6 [wLeadBare] [] []).1 (by decide),
   (claim_C6 wClosedLeads [] []).2 (by decide)⟩

/-- Claim C2: a WON lead with agreed_price present (200) but
expected_volume absent contributes nothing to the dashboard's
monthly_revenue (the "both present" rule) while contributing its
agreed_price to won_agreed (the "missing = 0" rule); on such an input
the two outputs differ. -/
theorem claim_C2 (l : Lead) (leads : List Lead) (orgs : List Organization)
    (stageNames : List String)
    (hst : l.status = "WON") (ha : l.agreed_price = some 200) (hv : l.expected_volume = none) :
    monthlyRevenueRaw (l :: leads) = monthlyRevenueRaw leads ∧
    wonAgreed (l :: leads) = 200 + wonAgreed leads ∧
    (get_dashboard_analytics [l] orgs stageNames).monthly_revenue = 0 ∧
    (get_dashboard_analytics [l] orgs stageNames).won_agreed = 200 ∧
    (get_dashboard_analytics [l] orgs stageNames).monthly_revenue ≠
      (get_dashboard_analytics [l] orgs stageNames).won_agreed := by
  have h1 : ∀ tl, monthlyRevenueRaw (l :: tl) = monthlyRevenueRaw tl := by
    intro tl
    unfold monthlyRevenueRaw
    simp [List.filter_cons, hst, hv]
  have h2 : ∀ tl, wonAgreed (l :: tl) = 200 + wonAgreed tl := by
    intro tl
    unfold wonAgreed
    simp [List.filter_cons, hst, ha]
  have h3 : (get_dashboard_analytics [l] orgs stageNames).monthly_revenue = 0 := by
    show round2 (monthlyRevenueRaw [l]) = 0
    rw [h1 [], show monthlyRevenueRaw [] = 0 from rfl, round2_zero]
  have h4 : (get_dashboard_analytics [l] orgs stageNames).won_agreed = 200 := by
    show wonAgreed [l] = 200
    rw [h2 []]
    simp [wonAgreed]
  exact ⟨h1 leads, h2 leads, h3, h4, by rw [h3, h4]; norm_num⟩

/-- Witness for claim C2 on a concrete WON lead with agreed_price 200
and absent expected_volume. -/
theorem claim_C2_witness :
    monthlyRevenueRaw [wLeadNoVolume] = monthlyRevenueRaw [] ∧
    wonAgreed [wLeadNoVolume] = 200 + wonAgreed [] ∧
    (get_dashboard_analytics [wLeadNoVolume] [] []).monthly_revenue = 0 ∧
    (get_dashboard_analytics [wLeadNoVolume] [] []).won_agreed = 200 ∧
    (get_dashboard_analytics [wLeadNoVolume] [] []).monthly_revenue ≠
      (get_dashboard_analytics [wLeadNoVolume] [] []).won_agreed :=
  claim_C2 wLeadNoVolume [] [] [] rfl rfl rfl

theorem pipelineValue_filterMap (leads : List Lead) :
    pipelineValue leads =
      (leads.filterMap (fun l => if l.status = "OPEN" then l.offered_price else none)).sum := by
  induction leads with
  | nil => rfl
  | cons hd tl ih =>
    unfold pipelineValue at ih ⊢
    by_cases hs : hd.status = "OPEN"
    · cases ho : hd.offered_price with
      | none => simp [List.filter_cons, List.filterMap_cons, hs, ho, ih]
      | some p => simp [List.filter_cons, List.filterMap_cons, hs, ho, ih]
    · simp [List.filter_cons, List.filterMap_cons, hs, ih]

/-- Claim C4: the dashboard pipeline_value is the sum of offered_price
over OPEN leads with offered_price present — leads with an absent
offered_price are excluded from the input set of the sum (adding one
leaves the value unchanged), and with no qualifying lead the value is
0, not null. -/
theorem claim_C4 (leads : List Lead) (orgs : List Organization) (stageNames : List String) :
    (get_dashboard_analytics leads orgs stageNames).pipeline_value =
      (leads.filterMap (fun l => if l.status = "OPEN" then l.offered_price else none)).sum ∧
    (∀ l : Lead, l.offered_price = none → pipelineValue (l :: leads) = pipelineValue leads) ∧
    ((∀ l ∈ leads, ¬(l.status = "OPEN" ∧ l.offered_price.isSome = true)) →
      (get_dashboard_analytics leads orgs stageNames).pipeline_value = 0) := by
  refine ⟨pipelineValue_filterMap leads, ?_, ?_⟩
  · intro l hl
    unfold pipelineValue
    simp [List.filter_cons, hl]
  · intro h
    show pipelineValue leads = 0
    unfold pipelineValue
    have hnil : leads.filter (fun l => l.status == "OPEN" && l.offered_price.isSome) = [] := by
      rw [List.filter_eq_nil_iff]
      intro a ha
      simp only [Bool.and_eq_true, beq_iff_eq]
      intro hcond
      exact h a ha ⟨hcond.1, hcond.2⟩
    rw [hnil]
    rfl

/-- Witness for claim C4 on concrete collections: one OPEN lead with
offered_price 500, a price-less lead added on top, and a WON-only
collection with pipeline value 0. -/
theorem claim_C4_witness :
    (get_dashboard_analytics [wLeadOpen] [] []).pipeline_value =
      ([wLeadOpen].filterMap (fun l => if l.status = "OPEN" then l.offered_price else none)).sum ∧
    pipelineValue (wLeadBare :: [wLeadOpen]) = pipelineValue [wLeadOpen] ∧
    (get_dashboard_analytics [wLeadNoVolume] [] []).pipeline_value = 0 :=
  ⟨(claim_C4 [wLeadOpen] [] []).1,
   (claim_C4 [wLeadOpen] [] []).2.1 wLeadBare rfl,
   (claim_C4 [wLeadNoVolume] [] []).2.2 (by decide)⟩

theorem lookup_map_of_mem (xs : List String) (f : String → ℕ) (a : String) (h : a ∈ xs) :
    (xs.map (fun t => (t, f t))).lookup a = some (f a) := by
  induction xs with
  | nil => simp at h
  | cons x xs ih =>
    by_cases hax : a = x
    · subst hax
      simp [List.lookup_cons]
    · rcases List.mem_cons.mp h with h1 | h1
      · exact absurd h1 hax
      · have hbeq : (a == x) = false := by simp [hax]
        simp [List.lookup_cons, hbeq, ih h1]

theorem orgTypeLeadCount_eq (orgs : List Organization) (leads : List Lead) (t : String) :
    orgTypeLeadCount orgs leads t =
      (leads.filter (fun l => (orgIdsOfType orgs t).contains l.organization_id)).length := by
  unfold orgTypeLeadCount
  dsimp only
  split
  · rename_i hemp
    have hnil : orgIdsOfType orgs t = [] := List.isEmpty_iff.mp hemp
    simp [hnil]
  · rfl

/-- Claim C8: the dashboard's leads_by_org_type maps each in-use type
label to the count of leads whose organization id belongs to the id set
of that type; when no organization of a type exists, the count is 0 and
no membership query is issued (short-circuit on the empty id set). -/
theorem claim_C8 (orgs : List Organization) (leads : List Lead) (stageNames : List String)
    (t : String) :
    (t ∈ orgs.map Organization.type →
      (get_dashboard_analytics leads orgs stageNames).leads_by_org_type.lookup t =
        some ((leads.filter (fun l =>
          (orgIdsOfType orgs t).contains l.organization_id)).length)) ∧
    (orgs.filter (fun o => o.type == t) = [] →
      orgTypeLeadCount orgs leads t = 0 ∧ orgTypeMembershipQueries orgs t = 0) := by
  constructor
  · intro h
    have hm : t ∈ distinctTypes orgs := by
      unfold distinctTypes
      exact List.mem_dedup.mpr h
    have hl := lookup_map_of_mem (distinctTypes orgs) (fun u => orgTypeLeadCount orgs leads u) t hm
    show ((distinctTypes orgs).map (fun u => (u, orgTypeLeadCount orgs leads u))).lookup t = _
    rw [hl]
    dsimp only
    rw [orgTypeLeadCount_eq]
  · intro h
    have hids : orgIdsOfType orgs t = [] := by
      unfold orgIdsOfType
      rw [h]
      rfl
    exact ⟨by simp [orgTypeLeadCount, hids], by simp [orgTypeMembershipQueries, hids]⟩

/-- Witness for claim C8: one HOSPITAL organization with one lead gives
count 1 under the HOSPITAL key, and the absent NGO type yields count 0
with no membership query. -/
theorem claim_C8_witness :
    (get_dashboard_analytics [wLeadOpen] [wOrg] []).leads_by_org_type.lookup "HOSPITAL" =
      some 1 ∧
    (orgTypeLeadCount [wOrg] [wLeadOpen] "NGO" = 0 ∧
      orgTypeMembershipQueries [wOrg] "NGO" = 0) := by
  constructor
  · have h := (claim_C8 [wOrg] [wLeadOpen] [] "HOSPITAL").1 (by decide)
    rw [h]
    decide
  · exact (claim_C8 [wOrg] [wLeadOpen] [] "NGO").2 (by decide)

/-- Claim C5: the geography report has one entry per region of the
fixed list for every state of the collections; a region with zero
organizations yields exactly the all-zero placeholder without issuing
further queries, and a region with organizations yields its
organization count, the count of leads of those organizations, and the
WON recurring-revenue sum scoped to that region's organization ids. -/
theorem claim_C5 (orgs : List Organization) (leads : List Lead) :
    ((get_geography_analytics orgs leads).map Prod.fst = INDIAN_STATES) ∧
    (∀ s ∈ INDIAN_STATES, (s, regionStats orgs leads s) ∈ get_geography_analytics orgs leads) ∧
    (∀ s : String, orgs.filter (fun o => o.state == s) = [] →
      regionStats orgs leads s = { organizations := 0, leads := 0, monthly_revenue := 0 } ∧
      regionExtraQueries orgs s = 0) ∧
    (∀ s : String, orgs.filter (fun o => o.state == s) ≠ [] →
      (regionStats orgs leads s).organizations = (orgs.filter (fun o => o.state == s)).length ∧
      (regionStats orgs leads s).leads =
        (leads.filter (fun l => (orgIdsOfState orgs s).contains l.organization_id)).length ∧
      (regionStats orgs leads s).monthly_revenue =
        round2 (((leads.filter (fun l =>
            (orgIdsOfState orgs s).contains l.organization_id && l.status == "WON" &&
            l.agreed_price.isSome && l.expected_volume.isSome)).map
          (fun l => l.agreed_price.getD 0 * ((l.expected_volume.getD 0 : ℤ) : ℚ))).sum)) := by
  refine ⟨?_, ?_, ?_, ?_⟩
  · unfold get_geography_analytics
    simp [Function.comp_def]
  · intro s hs
    exact List.mem_map_of_mem _ hs
  · intro s h
    have hids : orgIdsOfState orgs s = [] := by
      unfold orgIdsOfState
      rw [h]
      rfl
    exact ⟨by simp [regionStats, hids], by simp [regionExtraQueries, hids]⟩
  · intro s h
    have hids : ¬ ((orgIdsOfState orgs s).isEmpty = true) := by
      unfold orgIdsOfState
      simp [List.isEmpty_iff, h]
    refine ⟨?_, ?_, ?_⟩
    · unfold regionStats
      dsimp only
      rw [if_neg hids]
      simp [orgIdsOfState]
    · unfold regionStats
      dsimp only
      rw [if_neg hids]
    · unfold regionStats
      dsimp only
      rw [if_neg hids]

/-- Witness for claim C5: empty collections give every region a
placeholder, and one Kerala organization with one WON lead (agreed
price 100, volume 10) gives organizations 1, leads 1, monthly revenue
1000. -/
theorem claim_C5_witness :
    ((get_geography_analytics [] []).map Prod.fst = INDIAN_STATES) ∧
    (regionStats [] [] "Kerala" = { organizations := 0, leads := 0, monthly_revenue := 0 } ∧
      regionExtraQueries [] "Kerala" = 0) ∧
    ((regionStats [wOrg] [wLeadWon] "Kerala").organizations = 1 ∧
      (regionStats [wOrg] [wLeadWon] "Kerala").leads = 1 ∧
      (regionStats [wOrg] [wLeadWon] "Kerala").monthly_revenue = 1000) := by
  refine ⟨(claim_C5 [] []).1, (claim_C5 [] []).2.2.1 "Kerala" rfl, ?_⟩
  have h := (claim_C5 [wOrg] [wLeadWon]).2.2.2 "Kerala" (by decide)
  refine ⟨?_, ?_, ?_⟩
  · rw [h.1]
    decide
  · rw [h.2.1]
    decide
  · rw [h.2.2]
    have hsum : (([wLeadWon].filter (fun l =>
        (orgIdsOfState [wOrg] "Kerala").contains l.organization_id && l.status == "WON" &&
        l.agreed_price.isSome && l.expected_volume.isSome)).map
        (fun l => l.agreed_price.getD 0 * ((l.expected_volume.getD 0 : ℤ) : ℚ))).sum
        = ((1000 : ℤ) : ℚ) := by
      norm_num [orgIdsOfState, wOrg, wLeadWon, mkLead, List.filter]
    rw [hsum, round2_intCast]
    norm_num

end SalesCRM
